import Mathlib

/-!
Verification of the namespaced watch cache and platform glue of the
cluster-cloud-controller-manager-operator repository.

The Go sources are shallowly embedded:
* the `namespacedCache` type and its methods (`Watch`, `watch`,
  `getInformer`, `isNamespaced`, `ensureNamespace`, `watchKey`) become pure
  functions threading an explicit `CacheState`;
* the external collaborators (the runtime scheme lookup `GVKForObject`, the
  REST mapper, `cache.New`, `Cache.GetInformer`) become an `Env` record of
  oracle functions, so each theorem quantifies over their possible
  deterministic behaviours;
* Go `error` values are `Except String`, a `nil` error being `Except.ok`;
* Go maps become association lists with replace-on-update semantics;
* the unbuffered event channel's delivered contents become a `List Obj`.
-/

namespace NamespacedCache

/-- A `schema.GroupKind` from apimachinery: (API group, kind). -/
structure GroupKind where
  group : String
  kind : String
deriving DecidableEq, Repr

/-- Function `GroupKind.String()` from apimachinery: `Kind` when the group is empty,
otherwise `Kind "." Group`. -/
def GroupKind.gkString (gk : GroupKind) : String :=
  if gk.group = "" then gk.kind else gk.kind ++ "." ++ gk.group

/-- A `schema.GroupVersionKind`. -/
structure GroupVersionKind where
  group : String
  version : String
  kind : String
deriving DecidableEq, Repr

/-- Function `GroupVersionKind.GroupKind()`: drop the version. -/
def GroupVersionKind.groupKind (gvk : GroupVersionKind) : GroupKind :=
  { group := gvk.group, kind := gvk.kind }

/-- A `client.Object` as the cache observes it: its name, its namespace
(`""` when unset / cluster scoped) and its Go runtime type identity `typ`
(what `apiutil.GVKForObject` inspects). -/
structure Obj where
  name : String
  ns : String
  typ : String
deriving DecidableEq, Repr

/-- Constant `meta.RESTScopeNameNamespace`. -/
def RESTScopeNameNamespace : String := "namespace"

/-- The part of a `meta.RESTMapping` the cache reads: `Scope.Name()`. -/
structure RESTMapping where
  scopeName : String
deriving DecidableEq, Repr

/-- The external collaborators of the cache, as deterministic oracles:
`gvkFor` is `apiutil.GVKForObject(obj, scheme)`, `restMapping` is
`mapper.RESTMapping(gk)`, `cacheNew` tells whether `cache.New` succeeds for a
given namespace, and `getInf` whether `c.GetInformer(ctx, obj)` succeeds on
the cache of a given namespace. -/
structure Env where
  gvkFor : Obj → Except String GroupVersionKind
  restMapping : GroupKind → Except String RESTMapping
  cacheNew : String → Except String Unit
  getInf : String → Obj → Except String Unit

/-- The mutable state of a `namespacedCache`:
`caches` is the key set of the `map[string]cache.Cache` session pool,
`watchedResources` the `map[string]map[string]struct{}` registry
(namespace → registered watch keys), `handlers` the names bound by the
`eventToChannelHandler`s attached so far, `constructed` a log of the
namespaces for which `cache.New` succeeded (each such engine is immediately
started with `go c.Start(ctx)`), and `events` the objects delivered on
`eventChan`. -/
structure CacheState where
  caches : List String
  watchedResources : List (String × List String)
  handlers : List String
  constructed : List String
  events : List Obj
deriving DecidableEq, Repr

/-- The state of a freshly built `namespacedCache` (`NewNamespacedCache`):
empty maps, no handlers, nothing delivered. -/
def emptyState : CacheState :=
  { caches := [], watchedResources := [], handlers := [], constructed := [],
    events := [] }

/-- Go map read `m[k]`: association-list lookup. -/
def findNs : List (String × List String) → String → Option (List String)
  | [], _ => none
  | (k, v) :: rest, n => if k = n then some v else findNs rest n

/-- Go map write `m[k] = v`: replace the binding if present, append it
otherwise. -/
def setNs : List (String × List String) → String → List String →
    List (String × List String)
  | [], n, v => [(n, v)]
  | (k, w) :: rest, n, v =>
      if k = n then (n, v) :: rest else (k, w) :: setNs rest n v

/-- Method `namespacedCache.isNamespaced`: resolve the GVK via the scheme, look the
group-kind up in the REST mapper, compare the scope name with
`meta.RESTScopeNameNamespace`. -/
def isNamespaced (env : Env) (o : Obj) : Except String Bool := do
  let gvk ← env.gvkFor o
  let mapping ← env.restMapping gvk.groupKind
  pure (mapping.scopeName == RESTScopeNameNamespace)

/-- The message of the error `ensureNamespace` constructs. -/
def missingNamespaceErr : String := "namespaced objects must set their namespace"

/-- Method `namespacedCache.ensureNamespace`: namespace-scoped objects with an empty
namespace are rejected. -/
def ensureNamespace (env : Env) (o : Obj) : Except String Unit :=
  match isNamespaced env o with
  | .error e => .error e
  | .ok namespaced =>
      if namespaced && (o.ns == "") then .error missingNamespaceErr
      else .ok ()

/-- Method `namespacedCache.watchKey`: `fmt.Sprintf("%s/%s", gvk.GroupKind(), name)`.
A pure function of the environment and the object: it takes no `CacheState`
and returns none, so it is deterministic and side-effect-free by type. -/
def watchKey (env : Env) (o : Obj) : Except String String :=
  match env.gvkFor o with
  | .error e => .error e
  | .ok gvk => .ok (gvk.groupKind.gkString ++ "/" ++ o.name)

/-- Method `namespacedCache.getInformer`: validate the namespace, reuse the memoized
per-namespace cache when present, otherwise run `cache.New` (on failure the
error is returned and nothing is memoized; on success the engine is stored in
the pool and started), and finally ask that cache for the object's informer. -/
def getInformer (env : Env) (s : CacheState) (o : Obj) :
    Except String Unit × CacheState :=
  match ensureNamespace env o with
  | .error e => (.error e, s)
  | .ok _ =>
      if o.ns ∈ s.caches then
        (env.getInf o.ns o, s)
      else
        match env.cacheNew o.ns with
        | .error e => (.error e, s)
        | .ok _ =>
            (env.getInf o.ns o,
             { s with caches := s.caches ++ [o.ns],
                      constructed := s.constructed ++ [o.ns] })

/-- Method `namespacedCache.watch` (the lower-case helper). NOTE: the source reads

```
informer, err := n.getInformer(ctx, obj)
if err != nil {
    return nil
}
```

so an informer/engine acquisition error is swallowed and `nil` (success) is
returned; the embedding reproduces that faithfully. On success it computes
the watch key, attaches an `eventToChannelHandler` bound to the object's
name, and only then records the key in `watchedResources`. -/
def watchImpl (env : Env) (s : CacheState) (o : Obj) :
    Except String Unit × CacheState :=
  match getInformer env s o with
  | (.error _, s1) => (.ok (), s1)
  | (.ok _, s1) =>
      match watchKey env o with
      | .error e => (.error e, s1)
      | .ok key =>
          let s2 := { s1 with handlers := s1.handlers ++ [o.name] }
          let nw := (findNs s2.watchedResources o.ns).getD []
          let nw2 := if key ∈ nw then nw else nw ++ [key]
          (.ok (),
           { s2 with watchedResources := setNs s2.watchedResources o.ns nw2 })

/-- Method `namespacedCache.Watch`: validate the namespace, then dedup against the
registry — if the namespace has no entry at all, or the key is not yet
registered under it, fall through to `watch`; otherwise succeed with no side
effect. -/
def Watch (env : Env) (s : CacheState) (o : Obj) :
    Except String Unit × CacheState :=
  match ensureNamespace env o with
  | .error e => (.error e, s)
  | .ok _ =>
      match findNs s.watchedResources o.ns with
      | none => watchImpl env s o
      | some nw =>
          match watchKey env o with
          | .error e => (.error e, s)
          | .ok key =>
              if key ∈ nw then (.ok (), s) else watchImpl env s o

/-- The payload handed to an informer event handler callback: Go `nil`, a
value that fails the `o.(client.Object)` type assertion, or a resource
object. -/
inductive Payload where
  | nilPayload : Payload
  | nonObject : Payload
  | obj : Obj → Payload
deriving DecidableEq, Repr

/-- Struct `eventToChannelHandler`: holds the bound target name (and the shared
events channel, which the embedding threads explicitly). -/
structure EventToChannelHandler where
  name : String
deriving DecidableEq, Repr

/-- Method `eventToChannelHandler.queueEventForObject`, acting on the list of
objects delivered on the shared channel so far. `nil` payloads and values
that are not `client.Object` return early. NOTE: the name comparison in the
source is

```
if obj.GetName() != e.name {
    // Not the right object, skip
}
```

— an `if` whose body is only a comment, with no `return` — so the send on
`e.eventsChan` below it is reached for every object payload, matching name or
not; the embedding reproduces that by appending unconditionally. -/
def queueEventForObject (e : EventToChannelHandler) (p : Payload)
    (stream : List Obj) : List Obj :=
  match p with
  | .nilPayload => stream
  | .nonObject => stream
  | .obj o => stream ++ [o]

/-- Callback `OnAdd` delegates to `queueEventForObject`. -/
def onAdd (e : EventToChannelHandler) (p : Payload) (stream : List Obj) :
    List Obj :=
  queueEventForObject e p stream

/-- Callback `OnUpdate` delegates to `queueEventForObject` on the new object. -/
def onUpdate (e : EventToChannelHandler) (_oldp p : Payload)
    (stream : List Obj) : List Obj :=
  queueEventForObject e p stream

/-- Callback `OnDelete` delegates to `queueEventForObject`. -/
def onDelete (e : EventToChannelHandler) (p : Payload) (stream : List Obj) :
    List Obj :=
  queueEventForObject e p stream

end NamespacedCache

namespace Cloud

open NamespacedCache (GroupVersionKind)

/-- A `client.Object` as the resource-list glue sees it: its declared
`GroupVersionKind` (what `GetObjectKind().GroupVersionKind()` returns) and an
opaque payload identity distinguishing distinct objects of one GVK. -/
structure Resource where
  gvk : GroupVersionKind
  payload : String
deriving DecidableEq, Repr

/-- One step of the inner loop of `OwnedResourcesGroup`: given the
accumulated `(resourceDistinct, set)` pair and the next resource, append the
resource (and record its GVK in the set) exactly when its GVK is not yet in
the set. The `klog.Info(objType)` call in the source only logs and is
dropped. -/
def dedupStep (st : List Resource × List GroupVersionKind) (r : Resource) :
    List Resource × List GroupVersionKind :=
  if r.gvk ∈ st.2 then st else (st.1 ++ [r], st.2 ++ [r.gvk])

/-- Function `OwnedResourcesGroup`, parameterised by the per-platform resource lists.
The source builds `resourceUnion := []OwnedResources{GetAWSResources()}`
(`GetAWSResources` lives outside the files under study) and then runs the
nested dedup loop over it; the loop is embedded verbatim over an arbitrary
`resourceUnion`. -/
def OwnedResourcesGroup (resourceUnion : List (List Resource)) :
    List Resource :=
  (resourceUnion.foldl (fun st grp => grp.foldl dedupStep st) ([], [])).1

end Cloud

namespace Platform

open Cloud (Resource)

/-- Constant `configv1.AWSPlatformType` from the openshift API: the string `"AWS"`.
`configv1.PlatformType` itself is a string type. -/
def AWSPlatformType : String := "AWS"

/-- Function `getResources` from `pkg/platform/infrastructure.go`, parameterised by
the value `cloud.GetAWSResources()` returns (that function lives outside the
files under study). AWS maps to the AWS resource list; every other platform
falls through the `default` branch (which only logs a warning) to the final
`return nil`. `none` stands for Go's `nil` slice. -/
def getResources (awsResources : List Resource) (platformType : String) :
    Option (List Resource) :=
  if platformType = AWSPlatformType then some awsResources else none

/-- An `configv1.Infrastructure` as `GetOwner` reads it: only
`Status.Platform` matters. -/
structure Infrastructure where
  statusPlatform : String
deriving DecidableEq, Repr

/-- Method `InfrastrucutreOwner.GetOwner`: fetch the Infrastructure named by the
key (the client `Get` call is the oracle `getResult`); on failure return the
error with nil results, on success return the object, the platform's
resource list and a nil error. -/
def GetOwner (awsResources : List Resource)
    (getResult : Except String Infrastructure) :
    Except String (Infrastructure × Option (List Resource)) :=
  match getResult with
  | .error e => .error e
  | .ok infra => .ok (infra, getResources awsResources infra.statusPlatform)

end Platform

namespace NamespacedCache

/-- Predicate: watch key `k` is registered under namespace `n` in the
registry of state `s` (a missing namespace entry reads as the empty set,
like a Go map). -/
def registered (s : CacheState) (n k : String) : Prop :=
  k ∈ (findNs s.watchedResources n).getD []

instance (s : CacheState) (n k : String) : Decidable (registered s n k) := by
  unfold registered
  infer_instance

/-- One call on the public surface of the cache. -/
inductive CacheOp where
  | watchOp : Obj → CacheOp
  | eventStreamOp : CacheOp

/-- Effect of one public call on the state: `Watch` runs the registration
path; `EventStream` only returns the stored channel and mutates nothing. -/
def step (env : Env) (s : CacheState) : CacheOp → CacheState
  | .watchOp o => (Watch env s o).2
  | .eventStreamOp => s

/-- Run a sequence of public calls from a starting state. -/
def runOps (env : Env) (s : CacheState) : List CacheOp → CacheState
  | [] => s
  | op :: ops => runOps env (step env s op) ops

/-- Fixture environment: every type resolves to a core-group `v1` kind, every
kind is namespace scoped, and engine construction and informer access always
succeed. -/
def envNS : Env :=
  { gvkFor := fun o => .ok { group := "", version := "v1", kind := o.typ },
    restMapping := fun _ => .ok { scopeName := RESTScopeNameNamespace },
    cacheNew := fun _ => .ok (),
    getInf := fun _ _ => .ok () }

/-- Fixture environment: like `envNS`, except `cache.New` always fails. -/
def envFailNew : Env :=
  { gvkFor := fun o => .ok { group := "", version := "v1", kind := o.typ },
    restMapping := fun _ => .ok { scopeName := RESTScopeNameNamespace },
    cacheNew := fun _ => .error "connection refused",
    getInf := fun _ _ => .ok () }

/-- Fixture environment: the scheme does not know any object's type, so
group-kind resolution always fails. -/
def envGVKErr : Env :=
  { gvkFor := fun _ => .error "no kind is registered",
    restMapping := fun _ => .ok { scopeName := RESTScopeNameNamespace },
    cacheNew := fun _ => .ok (),
    getInf := fun _ _ => .ok () }

/-- Fixture object: the ConfigMap `cc-config` in `kube-system`. -/
def oKS : Obj := { name := "cc-config", ns := "kube-system", typ := "ConfigMap" }

/-- Fixture object: a ConfigMap with its namespace left empty. -/
def oNoNs : Obj := { name := "cc-config", ns := "", typ := "ConfigMap" }

/-- Fixture state: a registry that already holds the key
`ConfigMap/app-config` under the namespace `team-ns`. -/
def regState : CacheState :=
  { emptyState with watchedResources := [("team-ns", ["ConfigMap/app-config"])] }

end NamespacedCache

namespace Cloud

open NamespacedCache (GroupVersionKind)

/-- Specification-side description of the dedup loop, written from the
claim's words: walk the flattened union, keep a resource exactly when its
GVK has not occurred earlier, in first-occurrence order. `seen` carries the
GVKs already encountered. -/
def firstOcc (seen : List GroupVersionKind) : List Resource → List Resource
  | [] => []
  | r :: rs =>
      if r.gvk ∈ seen then firstOcc seen rs
      else r :: firstOcc (seen ++ [r.gvk]) rs

end Cloud

namespace NamespacedCache

/-- C1. The claim says a Forwarder bound to target name A never pushes a
Change Notification for an object whose name differs from A. In the source,
the name comparison in `queueEventForObject` is an `if` statement whose body
is only the comment `// Not the right object, skip` — there is no `return` —
so the send below it still runs. Evaluating the embedded handler bound to
`"A"` on an object named `"B"` shows the event for `"B"` is delivered on the
stream, contradicting the claim. -/
theorem queueEvent_sends_for_mismatched_name :
    queueEventForObject { name := "A" }
        (Payload.obj { name := "B", ns := "team-ns", typ := "ConfigMap" }) []
      = [{ name := "B", ns := "team-ns", typ := "ConfigMap" }] := rfl

/-- C2. The claim says a failure to construct the namespace's engine (or to
obtain the per-kind informer) is returned by `Watch`. In the source,
`watch` reads `informer, err := n.getInformer(ctx, obj); if err != nil
{ return nil }`, swallowing the error. Evaluating the embedding in an
environment where `cache.New` fails with `"connection refused"`:
`getInformer` returns that error, yet `Watch` returns success, with the
state (in particular the session pool) unchanged — the namespace is indeed
not memoized, but the error never reaches the caller. -/
theorem watch_swallows_informer_construction_error :
    (getInformer envFailNew emptyState oKS).1 = .error "connection refused"
    ∧ Watch envFailNew emptyState oKS = (.ok (), emptyState) :=
  ⟨rfl, rfl⟩

/-- C3. The claim says that after one successful `Watch(o)` the state holds
exactly one registry entry and one attached handler. In an environment where
engine construction fails, the swallowed error (see C2) makes `Watch` return
success while registering nothing: two successive `Watch(o)` calls both
return success, yet the registry, the handler list and the session pool all
stay empty — zero entries, not one. -/
theorem watch_repeat_success_without_registration :
    (Watch envFailNew emptyState oKS).1 = .ok ()
    ∧ (Watch envFailNew (Watch envFailNew emptyState oKS).2 oKS).1 = .ok ()
    ∧ ((Watch envFailNew (Watch envFailNew emptyState oKS).2 oKS).2).watchedResources = []
    ∧ ((Watch envFailNew (Watch envFailNew emptyState oKS).2 oKS).2).handlers = []
    ∧ ((Watch envFailNew (Watch envFailNew emptyState oKS).2 oKS).2).caches = [] :=
  ⟨rfl, rfl, rfl, rfl, rfl⟩

/-- C7. For every object whose group-kind resolves, the watch key is exactly
the resolved group-kind string, a slash, and the object's name; and the key
computation fails with precisely the error of group-kind resolution when
that fails. (`watchKey` takes no `CacheState` and returns none, so it is
deterministic and side-effect-free by construction.) -/
theorem watchKey_spec (env : Env) (o : Obj) (gvk : GroupVersionKind)
    (e : String) :
    (env.gvkFor o = .ok gvk →
       watchKey env o = .ok (gvk.groupKind.gkString ++ "/" ++ o.name))
    ∧ (env.gvkFor o = .error e → watchKey env o = .error e) := by
  constructor <;> intro h <;> unfold watchKey <;> rw [h]

/-- Witness for C7: concrete evaluations of both directions — the ConfigMap
`cc-config` gets key `ConfigMap/cc-config`, and an unresolvable type makes
`watchKey` return the resolution error itself. -/
theorem watchKey_spec_witness :
    watchKey envNS oKS = .ok "ConfigMap/cc-config"
    ∧ watchKey envGVKErr oKS = .error "no kind is registered" :=
  ⟨(watchKey_spec envNS oKS { group := "", version := "v1", kind := "ConfigMap" } "x").1 rfl,
   (watchKey_spec envGVKErr oKS { group := "", version := "v1", kind := "ConfigMap" }
      "no kind is registered").2 rfl⟩

end NamespacedCache

namespace Cloud

open NamespacedCache (GroupVersionKind)

/-- Auxiliary invariant of the dedup loop: folding `dedupStep` from an
accumulated pair appends exactly the first occurrences (with respect to the
GVKs already seen) and their GVKs. -/
theorem foldl_dedupStep_eq (l : List Resource) (acc : List Resource)
    (seen : List GroupVersionKind) :
    l.foldl dedupStep (acc, seen)
      = (acc ++ firstOcc seen l,
         seen ++ (firstOcc seen l).map (fun r => r.gvk)) := by
  induction l generalizing acc seen with
  | nil => simp [firstOcc]
  | cons r rs ih =>
      by_cases h : r.gvk ∈ seen
      · simp [dedupStep, h, firstOcc, ih]
      · simp only [List.foldl_cons, dedupStep, h, if_neg, firstOcc]
        simp only [h, ite_false]
        rw [ih]
        simp

/-- C9. `OwnedResourcesGroup` returns exactly the first-occurrence sublist
of the flattened union of the per-platform resource lists: a resource is
kept exactly when its GroupVersionKind has not occurred earlier, and the
output preserves first-occurrence order — which is what `firstOcc []`
computes by definition. -/
theorem OwnedResourcesGroup_dedups (resourceUnion : List (List Resource)) :
    OwnedResourcesGroup resourceUnion = firstOcc [] resourceUnion.flatten := by
  unfold OwnedResourcesGroup
  rw [← List.foldl_flatten, foldl_dedupStep_eq]
  simp

end Cloud

namespace Platform

/-- C10. For every platform type other than AWS, `getResources` falls
through the `switch` to `return nil`; consequently `GetOwner`, when the
client `Get` succeeds on an Infrastructure whose status names an
unrecognized platform, returns that Infrastructure with a nil resource list
and no error. -/
theorem getOwner_unknown_platform (aws : List Cloud.Resource)
    (infra : Infrastructure) (h : infra.statusPlatform ≠ AWSPlatformType) :
    getResources aws infra.statusPlatform = none
    ∧ GetOwner aws (.ok infra) = .ok (infra, none) := by
  unfold GetOwner getResources
  simp [h]

/-- Witness for C10: an Infrastructure whose status platform is
`"OpenStack"` yields a nil resource list and a successful `GetOwner`. -/
theorem getOwner_unknown_platform_witness :
    ("OpenStack" : String) ≠ AWSPlatformType
    ∧ (getResources [] ({ statusPlatform := "OpenStack" } : Infrastructure).statusPlatform = none
       ∧ GetOwner [] (.ok { statusPlatform := "OpenStack" })
           = .ok ({ statusPlatform := "OpenStack" }, none)) :=
  ⟨by decide,
   getOwner_unknown_platform [] { statusPlatform := "OpenStack" } (by decide)⟩

end Platform

namespace NamespacedCache

/-- Helper: when the object is namespace scoped (scope resolution succeeds
and answers "namespaced") and its namespace is empty, `ensureNamespace`
rejects it with the fixed invalid-argument error. -/
theorem ensureNamespace_empty_ns (env : Env) (o : Obj)
    (h1 : isNamespaced env o = .ok true) (h2 : o.ns = "") :
    ensureNamespace env o = .error missingNamespaceErr := by
  unfold ensureNamespace
  rw [h1, h2]
  rfl

/-- C4. A `Watch` call on a namespace-scoped object with empty namespace
fails with the invalid-argument error of `ensureNamespace`, and the
resulting state is exactly the input state — in particular the session
pool, the registry and the event stream are untouched (so a stream that was
empty stays empty). -/
theorem Watch_empty_namespace_rejected (env : Env) (s : CacheState) (o : Obj)
    (h1 : isNamespaced env o = .ok true) (h2 : o.ns = "") :
    Watch env s o = (.error missingNamespaceErr, s) := by
  unfold Watch
  rw [ensureNamespace_empty_ns env o h1 h2]

/-- Witness for C4: a namespace-scoped ConfigMap with no namespace is
rejected from the fresh state, which is returned unchanged. -/
theorem Watch_empty_namespace_rejected_witness :
    isNamespaced envNS oNoNs = .ok true
    ∧ oNoNs.ns = ""
    ∧ Watch envNS emptyState oNoNs = (.error missingNamespaceErr, emptyState) :=
  ⟨rfl, rfl, Watch_empty_namespace_rejected envNS emptyState oNoNs rfl rfl⟩

/-- Helper: `getInformer` never touches the registry, the handler list or
the delivered events, whatever branch it takes. -/
theorem getInformer_preserves_registry (env : Env) (s : CacheState) (o : Obj) :
    ((getInformer env s o).2).watchedResources = s.watchedResources
    ∧ ((getInformer env s o).2).handlers = s.handlers
    ∧ ((getInformer env s o).2).events = s.events := by
  unfold getInformer
  split
  · exact ⟨rfl, rfl, rfl⟩
  · split
    · exact ⟨rfl, rfl, rfl⟩
    · split
      · exact ⟨rfl, rfl, rfl⟩
      · exact ⟨rfl, rfl, rfl⟩

/-- Helper: the state a `getInformer` call returns carries the registry of
the state it was given. -/
theorem getInformer_snd_watched (env : Env) (s : CacheState) (o : Obj)
    (r : Except String Unit) (s1 : CacheState)
    (hg : getInformer env s o = (r, s1)) :
    s1.watchedResources = s.watchedResources := by
  have h := (getInformer_preserves_registry env s o).1
  rw [hg] at h
  exact h

/-- Helper: if the lower-case `watch` helper returns an error, the registry
of the state it returns is the registry it started from. -/
theorem watchImpl_error_registry (env : Env) (s : CacheState) (o : Obj)
    (e : String) (h : (watchImpl env s o).1 = .error e) :
    ((watchImpl env s o).2).watchedResources = s.watchedResources := by
  unfold watchImpl at h ⊢
  split at h
  next e1 s1 heq =>
    simp at h
  next u s1 heq =>
    split at h
    next e1 heq2 =>
      simp only [heq, heq2]
      have hs1 := getInformer_snd_watched env s o (.ok u) s1 heq
      simpa using hs1
    next key heq2 =>
      simp at h

/-- C5. Every `Watch` call that returns an error leaves the Namespace Watch
Registry exactly as it was: the error exits (`ensureNamespace`, `watchKey`,
or the key-computation inside `watch`) all happen before the key is
recorded, so no stale registry entry is left behind. -/
theorem Watch_error_leaves_registry (env : Env) (s : CacheState) (o : Obj)
    (e : String) (h : (Watch env s o).1 = .error e) :
    ((Watch env s o).2).watchedResources = s.watchedResources := by
  unfold Watch at h ⊢
  split at h
  next e1 heq =>
    simp only [heq]
  next u heq =>
    try simp only [heq]
    split at h
    next heq2 =>
      try simp only [heq2]
      exact watchImpl_error_registry env s o e h
    next nw heq2 =>
      try simp only [heq2]
      split at h
      next e1 heq3 =>
        try simp only [heq3]
        try rfl
      next key heq3 =>
        try simp only [heq3]
        split at h
        next hmem =>
          simp at h
        next hmem =>
          try simp only [if_neg hmem]
          exact watchImpl_error_registry env s o e h

/-- Witness for C5: with a scheme that cannot resolve any type, `Watch`
returns the resolution error and the registry of the fresh state is
unchanged. -/
theorem Watch_error_leaves_registry_witness :
    (Watch envGVKErr emptyState oKS).1 = .error "no kind is registered"
    ∧ ((Watch envGVKErr emptyState oKS).2).watchedResources
        = emptyState.watchedResources :=
  ⟨rfl,
   Watch_error_leaves_registry envGVKErr emptyState oKS
     "no kind is registered" rfl⟩

end NamespacedCache

namespace NamespacedCache

/-- C6. The session pool is memoized. First conjuncts: when a namespace has
no pool entry and engine construction succeeds, `getInformer` constructs and
starts exactly one engine bound to exactly that namespace (one new entry in
the construction log, one new pool key). Last conjunct: whenever the
requested namespace is already in the pool — including the cluster-scope
sentinel `""` — the stored engine is reused and the state (pool and
construction log included) is unchanged, so no second engine is ever built
for a namespace. -/
theorem getInformer_pool_memoized (env : Env) (s s2 : CacheState) (o o2 : Obj)
    (hv : ensureNamespace env o = .ok ())
    (hnew : o.ns ∉ s.caches) (hok : env.cacheNew o.ns = .ok ())
    (hmem : o2.ns ∈ s2.caches) :
    ((getInformer env s o).2).caches = s.caches ++ [o.ns]
    ∧ ((getInformer env s o).2).constructed = s.constructed ++ [o.ns]
    ∧ (getInformer env s2 o2).2 = s2 := by
  refine ⟨?_, ?_, ?_⟩
  · unfold getInformer
    simp [hv, hok, hnew]
  · unfold getInformer
    simp [hv, hok, hnew]
  · unfold getInformer
    split
    · rfl
    · rw [if_pos hmem]

/-- Witness for C6: from the fresh state, the first request for
`kube-system` adds exactly one constructed engine and one pool entry, both
for `kube-system`, and a second request on the resulting state leaves it
unchanged. -/
theorem getInformer_pool_memoized_witness :
    (ensureNamespace envNS oKS = .ok ()
     ∧ oKS.ns ∉ emptyState.caches
     ∧ envNS.cacheNew oKS.ns = .ok ()
     ∧ oKS.ns ∈ ((getInformer envNS emptyState oKS).2).caches)
    ∧ (((getInformer envNS emptyState oKS).2).caches
         = emptyState.caches ++ [oKS.ns]
       ∧ ((getInformer envNS emptyState oKS).2).constructed
           = emptyState.constructed ++ [oKS.ns]
       ∧ (getInformer envNS (getInformer envNS emptyState oKS).2 oKS).2
           = (getInformer envNS emptyState oKS).2) :=
  ⟨⟨rfl, by decide, rfl, by decide⟩,
   getInformer_pool_memoized envNS emptyState
     (getInformer envNS emptyState oKS).2 oKS oKS rfl (by decide) rfl
     (by decide)⟩

/-- Helper: reading a key after a `setNs` write — the written namespace
returns the new value, any other namespace is unaffected. -/
theorem findNs_setNs (l : List (String × List String)) (n m : String)
    (v : List String) :
    findNs (setNs l n v) m = if m = n then some v else findNs l m := by
  induction l with
  | nil =>
      by_cases h : m = n
      · simp [setNs, findNs, h]
      · simp [setNs, findNs, h, Ne.symm h]
  | cons hd tl ih =>
      obtain ⟨a, w⟩ := hd
      by_cases ha : a = n
      · subst ha
        by_cases hm : a = m
        · subst hm
          simp [setNs, findNs]
        · simp [setNs, findNs, hm, Ne.symm hm]
      · by_cases hm : a = m
        · subst hm
          simp [setNs, findNs, ha, Ne.symm ha]
        · simp [setNs, findNs, ha, hm, ih]

/-- Helper: the lower-case `watch` helper never removes a registered key. -/
theorem watchImpl_registry_mono (env : Env) (s : CacheState) (o : Obj)
    (n k : String) (h : registered s n k) :
    registered ((watchImpl env s o).2) n k := by
  unfold watchImpl
  split
  next e1 s1 heq =>
    have hs1 := getInformer_snd_watched env s o (.error e1) s1 heq
    unfold registered at h ⊢
    simpa [hs1] using h
  next u s1 heq =>
    have hs1 := getInformer_snd_watched env s o (.ok u) s1 heq
    split
    next e1 heq2 =>
      unfold registered at h ⊢
      simpa [hs1] using h
    next key heq2 =>
      unfold registered at h ⊢
      dsimp only
      rw [findNs_setNs]
      by_cases hn : n = o.ns
      · subst hn
        rw [if_pos rfl]
        rw [← hs1] at h
        by_cases hmem : key ∈ (findNs s1.watchedResources o.ns).getD []
        · simpa [hmem] using h
        · simp only [if_neg hmem, Option.getD_some]
          exact List.mem_append_left _ h
      · rw [if_neg hn, hs1]
        exact h

/-- Helper: a full `Watch` call never removes a registered key. -/
theorem Watch_registry_mono (env : Env) (s : CacheState) (o : Obj)
    (n k : String) (h : registered s n k) :
    registered ((Watch env s o).2) n k := by
  unfold Watch
  split
  next e1 heq => exact h
  next u heq =>
    split
    next heq2 => exact watchImpl_registry_mono env s o n k h
    next nw heq2 =>
      split
      next e1 heq3 => exact h
      next key heq3 =>
        split
        next hmem => exact h
        next hmem => exact watchImpl_registry_mono env s o n k h

/-- C8. The Namespace Watch Registry grows monotonically: across any
sequence of public `Watch` / `EventStream` calls, a (namespace, watch key)
pair that is registered stays registered — no operation of the cache evicts
it, so the per-key transition Unwatched → Watched is terminal. -/
theorem watch_registry_monotone (env : Env) (s : CacheState)
    (ops : List CacheOp) (n k : String) (h : registered s n k) :
    registered (runOps env s ops) n k := by
  induction ops generalizing s with
  | nil => exact h
  | cons op ops ih =>
      cases op with
      | watchOp o => exact ih ((Watch env s o).2) (Watch_registry_mono env s o n k h)
      | eventStreamOp => exact ih s h

/-- Witness for C8: a state with `ConfigMap/app-config` registered under
`team-ns` still has it registered after a `Watch` on another object followed
by an `EventStream` call. -/
theorem watch_registry_monotone_witness :
    registered regState "team-ns" "ConfigMap/app-config"
    ∧ registered
        (runOps envNS regState [CacheOp.watchOp oKS, CacheOp.eventStreamOp])
        "team-ns" "ConfigMap/app-config" :=
  ⟨by decide,
   watch_registry_monotone envNS regState
     [CacheOp.watchOp oKS, CacheOp.eventStreamOp]
     "team-ns" "ConfigMap/app-config" (by decide)⟩

end NamespacedCache
